import Mathlib

/-!
Shallow embedding of `src/bridge.py` (Paytm ECR bridge).

The bridge is a FastAPI app with three endpoints.  We embed:
  * configuration sections as association lists of string-valued fields
    (Python dicts with insertion-order-preserving assignment semantics);
  * the environment of a single request (`Env`): the outcome of
    `get_configs()` (fresh `json.load` per call, lines 29-36), the OS port
    enumeration used by `is_port_available` (lines 39-41), the behavior of
    `payments.Payments(**config)` construction and of the SDK calls
    `sdk.Sale()` / `sdk.Status()` as opaque functions of the per-call
    config, each with a wall-clock duration in seconds;
  * each handler as a pure function from `Env` and the parsed request to
    the JSON response together with the trace of device-relevant events it
    performs.  The event alphabet includes `acquire`/`release` constructors
    for a mutual-exclusion gate; the source contains no locking construct,
    so no definition in this file ever emits them.
  * `execute_with_timeout` (lines 44-47) in a timed model: the value the
    caller sees and the elapsed wall-clock time before control returns.
    The `with concurrent.futures.ThreadPoolExecutor(...)` block calls
    `executor.shutdown(wait=True)` on exit, so even when
    `future.result(timeout=...)` raises `TimeoutError` at the deadline,
    control leaves the block only once the worker function has finished:
    the elapsed time is the full duration of the underlying call.

Python exception messages that are incidental to the claims (e.g. the
`str(e)` of a `KeyError`) are modelled by fixed descriptive strings.
-/

namespace PaytmBridge

/-- JSON-ish values appearing in handler responses. -/
inductive Val where
  | str (s : String)
  | bool (b : Bool)
  deriving DecidableEq, Repr

/-- A config section: a Python dict with string keys and string-like values
(port name, SDK parameters, injected per-call fields). -/
abbrev Dict := List (String × String)

/-- A JSON response object. -/
abbrev Obj := List (String × Val)

/-- Python dict assignment `d[k] = v`: overwrite the existing binding in
place (keys are unique in a Python dict), otherwise append at the end
(insertion order preserved). -/
def dictSet : Dict → String → String → Dict
  | [], k, v => [(k, v)]
  | p :: rest, k, v => if p.1 = k then (k, v) :: rest else p :: dictSet rest k v

/-- Python dict lookup `d[k]` (as an `Option`: `none` models `KeyError`). -/
def dictGet : Dict → String → Option String
  | [], _ => none
  | p :: rest, k => if p.1 = k then some p.2 else dictGet rest k

/-- Lookup in a response object. -/
def objGet (o : Obj) (k : String) : Option Val :=
  (o.find? (fun p => p.1 = k)).map (fun p => p.2)

/-- Lookup of a top-level section (`configs["Sale"]`, `configs["Status"]`)
in the parsed `config.json`. -/
def configsGet (cs : List (String × Dict)) (k : String) : Option Dict :=
  (cs.find? (fun p => p.1 = k)).map (fun p => p.2)

/-- One run of an opaque SDK operation: the value it produces (or the
message of the exception it raises) and its wall-clock duration in
seconds. -/
structure SdkRun where
  result : Except String Obj
  duration : Nat

/-- Exceptions a handler body can raise: `concurrent.futures.TimeoutError`
or any other `Exception` carrying its `str(e)` message. -/
inductive Exc where
  | timeoutError
  | exc (msg : String)
  deriving DecidableEq, Repr

/-- Device-relevant events a handler performs, in order.  `acquire` and
`release` stand for a mutual-exclusion gate on the device; the source has
no locking construct, so no handler in this file emits them. -/
inductive Ev where
  | configLoad
  | portCheck (port : String)
  | acquire
  | release
  | sdkCreate (cfg : Dict)
  | devStart
  | devEnd
  deriving DecidableEq, Repr

/-- The external world of one request: outcome of `get_configs()` (a fresh
parse of `config.json`; an `error` is the exception message), the OS serial
port enumeration, the behavior of SDK construction and of the `Sale` /
`Status` operations as functions of the per-call config. -/
structure Env where
  configFile : Except String (List (String × Dict))
  ports : List String
  construct : Dict → Except String Unit
  saleRun : Dict → SdkRun
  statusRun : Dict → SdkRun

/-- ASCII model of Python `str.upper()` on a character (port names are
ASCII device names such as `COM3`). -/
def upperChar (c : Char) : Char :=
  if 97 ≤ c.toNat ∧ c.toNat ≤ 122 then Char.ofNat (c.toNat - 32) else c

/-- ASCII model of Python `str.upper()`. -/
def upperString (s : String) : String := String.mk (s.data.map upperChar)

/-- `is_port_available` (bridge.py lines 39-41): case-insensitive match of
the configured name against the enumerated port devices. -/
def is_port_available (ports : List String) (port_name : String) : Bool :=
  ports.any (fun p => upperString p == upperString port_name)

/-- Timed model of `execute_with_timeout` (bridge.py lines 44-47): the
caller-visible value and the elapsed seconds until control returns.  When
the call finishes within the deadline, its value (or exception) is
returned at its own duration.  When it exceeds the deadline,
`future.result(timeout=...)` raises `TimeoutError`, but the
`with` block's implicit `executor.shutdown(wait=True)` blocks until the
worker finishes, so control returns only at the call's full duration. -/
def execute_with_timeout (run : SdkRun) (timeout : Nat) : Except Exc Obj × Nat :=
  if run.duration ≤ timeout then
    (match run.result with
      | Except.ok p => (Except.ok p, run.duration)
      | Except.error m => (Except.error (Exc.exc m), run.duration))
  else
    (Except.error Exc.timeoutError, run.duration)

/-- The caller-visible value of `execute_with_timeout` (ignoring time). -/
def execValue (run : SdkRun) (timeout : Nat) : Except Exc Obj :=
  (execute_with_timeout run timeout).1

/-- Timeout passed to the executor for `/sale` (bridge.py line 120). -/
def saleTimeoutSeconds : Nat := 180

/-- Timeout passed to the executor for `/status` (bridge.py line 164). -/
def statusTimeoutSeconds : Nat := 60

/-- Parsed `/sale` request body after pydantic validation. -/
structure SaleRequest where
  order_id : String
  amount : String
  payment_mode : String
  deriving DecidableEq, Repr

/-- Parsed `/status` request body after pydantic validation. -/
structure StatusRequest where
  order_id : String
  deriving DecidableEq, Repr

/-- A raw JSON request body with string-valued fields, as far as pydantic
string-field validation distinguishes them: which fields are present and
what string each holds. -/
abbrev Body := List (String × String)

def bodyGet (b : Body) (k : String) : Option String :=
  (b.find? (fun p => p.1 = k)).map (fun p => p.2)

/-- Pydantic validation of `SaleRequest` (bridge.py lines 61-64):
`order_id : str` and `amount : str` are required string fields,
`payment_mode : str = "QR"` is an optional string field.  A missing
required field is a `ValidationError`; the contents of the strings are not
constrained in any way. -/
def parseSaleRequest (b : Body) : Except String SaleRequest :=
  match bodyGet b "order_id", bodyGet b "amount" with
  | some oid, some amt =>
    Except.ok ⟨oid, amt, (bodyGet b "payment_mode").getD "QR"⟩
  | none, _ => Except.error "ValidationError: order_id field required"
  | _, none => Except.error "ValidationError: amount field required"

/-- Pydantic validation of `StatusRequest` (bridge.py lines 67-68). -/
def parseStatusRequest (b : Body) : Except String StatusRequest :=
  match bodyGet b "order_id" with
  | some oid => Except.ok ⟨oid⟩
  | none => Except.error "ValidationError: order_id field required"

/-- The per-call config for `/sale` (bridge.py lines 107-110): the Sale
section with `order_id`, `amount` and `payment_mode` assigned in order. -/
def mergedSaleConfig (sale_config : Dict) (data : SaleRequest) : Dict :=
  dictSet (dictSet (dictSet sale_config "order_id" data.order_id)
    "amount" data.amount) "payment_mode" data.payment_mode

/-- The per-call config for `/status` (bridge.py line 155): the Status
section with only `order_id` assigned. -/
def mergedStatusConfig (status_config : Dict) (data : StatusRequest) : Dict :=
  dictSet status_config "order_id" data.order_id

/-- A `{"status": ..., "message": ...}` response object. -/
def statusMsgObj (st msg : String) : Obj :=
  [("status", Val.str st), ("message", Val.str msg)]

/-- The `try`-block of the `/sale` handler (bridge.py lines 95-124):
the value it produces or the exception it raises, together with the trace
of device-relevant events performed. -/
def saleBody (env : Env) (data : SaleRequest) : Except Exc Obj × List Ev :=
  match env.configFile with
  | Except.error e => (Except.error (Exc.exc e), [Ev.configLoad])
  | Except.ok configs =>
    match configsGet configs "Sale" with
    | none => (Except.error (Exc.exc "KeyError: Sale"), [Ev.configLoad])
    | some sale_config =>
      match dictGet sale_config "port_name" with
      | none => (Except.error (Exc.exc "KeyError: port_name"), [Ev.configLoad])
      | some port =>
        if is_port_available env.ports port then
          let cfg := mergedSaleConfig sale_config data
          match env.construct cfg with
          | Except.error e =>
            (Except.error (Exc.exc e),
             [Ev.configLoad, Ev.portCheck port, Ev.sdkCreate cfg])
          | Except.ok _ =>
            (execValue (env.saleRun cfg) saleTimeoutSeconds,
             [Ev.configLoad, Ev.portCheck port, Ev.sdkCreate cfg,
              Ev.devStart, Ev.devEnd])
        else
          (Except.ok (statusMsgObj "error" ("Device not connected on " ++ port)),
           [Ev.configLoad, Ev.portCheck port])

/-- The `/sale` handler (bridge.py lines 93-138): the `try`-block wrapped
in the two `except` clauses, so the handler always returns a response. -/
def sale (env : Env) (data : SaleRequest) : Obj × List Ev :=
  match saleBody env data with
  | (Except.ok r, tr) => (r, tr)
  | (Except.error Exc.timeoutError, tr) =>
    (statusMsgObj "timeout" "Transaction timed out", tr)
  | (Except.error (Exc.exc m), tr) => (statusMsgObj "error" m, tr)

/-- The `try`-block of the `/status` handler (bridge.py lines 143-168). -/
def statusBody (env : Env) (data : StatusRequest) : Except Exc Obj × List Ev :=
  match env.configFile with
  | Except.error e => (Except.error (Exc.exc e), [Ev.configLoad])
  | Except.ok configs =>
    match configsGet configs "Status" with
    | none => (Except.error (Exc.exc "KeyError: Status"), [Ev.configLoad])
    | some status_config =>
      match dictGet status_config "port_name" with
      | none => (Except.error (Exc.exc "KeyError: port_name"), [Ev.configLoad])
      | some port =>
        if is_port_available env.ports port then
          let cfg := mergedStatusConfig status_config data
          match env.construct cfg with
          | Except.error e =>
            (Except.error (Exc.exc e),
             [Ev.configLoad, Ev.portCheck port, Ev.sdkCreate cfg])
          | Except.ok _ =>
            (execValue (env.statusRun cfg) statusTimeoutSeconds,
             [Ev.configLoad, Ev.portCheck port, Ev.sdkCreate cfg,
              Ev.devStart, Ev.devEnd])
        else
          (Except.ok (statusMsgObj "error" ("Device not connected on " ++ port)),
           [Ev.configLoad, Ev.portCheck port])

/-- The `/status` handler (bridge.py lines 141-182). -/
def status (env : Env) (data : StatusRequest) : Obj × List Ev :=
  match statusBody env data with
  | (Except.ok r, tr) => (r, tr)
  | (Except.error Exc.timeoutError, tr) =>
    (statusMsgObj "timeout" "Status request timed out", tr)
  | (Except.error (Exc.exc m), tr) => (statusMsgObj "error" m, tr)

/-- The `/health` handler (bridge.py lines 73-90): response and event
trace.  It reads the Sale section's port and checks its presence; it never
constructs an SDK instance, starts a device operation, or touches any
gate. -/
def health (env : Env) : Obj × List Ev :=
  match env.configFile with
  | Except.error e => (statusMsgObj "error" e, [Ev.configLoad])
  | Except.ok configs =>
    match configsGet configs "Sale" with
    | none => (statusMsgObj "error" "KeyError: Sale", [Ev.configLoad])
    | some sec =>
      match dictGet sec "port_name" with
      | none => (statusMsgObj "error" "KeyError: port_name", [Ev.configLoad])
      | some port =>
        ([("status", Val.str "running"),
          ("device_connected", Val.bool (is_port_available env.ports port)),
          ("port", Val.str port)],
         [Ev.configLoad, Ev.portCheck port])

/-! ### Interleavings of two request threads

The HTTP layer runs handlers for concurrent requests on separate threads
(FastAPI executes `def` endpoints on a thread pool).  We model a joint
execution of two requests as an interleaving of their event traces, tagged
by a thread id.  The only synchronization events in the alphabet are
`acquire`/`release` of the single device gate; an interleaving is
admissible when it respects mutual exclusion on that gate.  Since the
source contains no lock, handler traces contain no `acquire`/`release`
and every interleaving of them is admissible. -/

/-- The events of thread `b` in an interleaving. -/
def projTrace (b : Bool) (il : List (Bool × Ev)) : List Ev :=
  (il.filter (fun p => p.1 == b)).map (fun p => p.2)

/-- `il` is an interleaving of trace `t1` (thread `true`) and trace `t2`
(thread `false`). -/
def IsInterleaving (t1 t2 : List Ev) (il : List (Bool × Ev)) : Prop :=
  projTrace true il = t1 ∧ projTrace false il = t2

/-- Mutual-exclusion discipline for the device gate: starting from holder
state `st`, `acquire` succeeds only when the gate is free and `release`
only by the holder.  Interleavings of traces with no gate events satisfy
this vacuously. -/
def lockOk (st : Option Bool) : List (Bool × Ev) → Bool
  | [] => true
  | (b, Ev.acquire) :: rest =>
    match st with
    | none => lockOk (some b) rest
    | some _ => false
  | (b, Ev.release) :: rest =>
    match st with
    | some c => c == b && lockOk none rest
    | none => false
  | _ :: rest => lockOk st rest

/-- Thread `b` is inside its device-operation window after the prefix
`pre`: it has performed more `devStart` than `devEnd` events. -/
def inWindow (b : Bool) (pre : List (Bool × Ev)) : Bool :=
  Nat.blt ((pre.filter (fun p => p.1 == b && p.2 == Ev.devEnd)).length)
          ((pre.filter (fun p => p.1 == b && p.2 == Ev.devStart)).length)

/-- Some prefix of the interleaving has both threads inside their
device-operation windows simultaneously. -/
def windowsOverlap (il : List (Bool × Ev)) : Bool :=
  (List.range (il.length + 1)).any
    (fun i => inWindow true (il.take i) && inWindow false (il.take i))

/-! ### Concrete environments and requests used in witnesses -/

/-- A Sale section of `config.json` with the device on COM3. -/
def saleSection : Dict := [("port_name", "COM3"), ("merchant_key", "MK1")]

/-- A Status section of `config.json` with the device on COM3. -/
def statusSection : Dict := [("port_name", "COM3"), ("merchant_key", "MK1")]

/-- A well-formed parsed `config.json`. -/
def okConfigs : List (String × Dict) :=
  [("Sale", saleSection), ("Status", statusSection)]

/-- Environment: device present on COM3, SDK succeeds quickly. -/
def envOk : Env where
  configFile := Except.ok okConfigs
  ports := ["COM3"]
  construct := fun _ => Except.ok ()
  saleRun := fun _ => ⟨Except.ok [("result", Val.str "SUCCESS")], 5⟩
  statusRun := fun _ => ⟨Except.ok [("result", Val.str "PENDING")], 5⟩

/-- Environment: port list does not contain the configured COM3. -/
def envNoPort : Env where
  configFile := Except.ok okConfigs
  ports := ["COM9"]
  construct := fun _ => Except.ok ()
  saleRun := fun _ => ⟨Except.ok [("result", Val.str "SUCCESS")], 5⟩
  statusRun := fun _ => ⟨Except.ok [("result", Val.str "PENDING")], 5⟩

/-- Environment: device present, but the Status SDK call blocks for 100
seconds, beyond the 60-second deadline. -/
def envSlow : Env where
  configFile := Except.ok okConfigs
  ports := ["COM3"]
  construct := fun _ => Except.ok ()
  saleRun := fun _ => ⟨Except.ok [("result", Val.str "SUCCESS")], 5⟩
  statusRun := fun _ => ⟨Except.ok [("result", Val.str "PENDING")], 100⟩

def reqA1 : SaleRequest := ⟨"A1", "100.00", "QR"⟩

def reqB2 : SaleRequest := ⟨"B2", "50.00", "CARD"⟩

def reqS1 : StatusRequest := ⟨"A1"⟩

/-- An interleaving of a `/sale` and a `/status` request against `envOk`:
the sale thread runs up to and including its `devStart`, then the status
thread runs up to and including its `devStart`, then both finish. -/
def ilWitness : List (Bool × Ev) :=
  ((sale envOk reqA1).2.take 4).map (fun e => (true, e)) ++
  ((status envOk reqS1).2.take 4).map (fun e => (false, e)) ++
  ((sale envOk reqA1).2.drop 4).map (fun e => (true, e)) ++
  ((status envOk reqS1).2.drop 4).map (fun e => (false, e))

/-! ### Dict lemmas -/

theorem dictGet_dictSet_self (d : Dict) (k v : String) :
    dictGet (dictSet d k v) k = some v := by
  induction d with
  | nil => simp [dictSet, dictGet]
  | cons p rest ih =>
    by_cases hp : p.1 = k
    · simp [dictSet, dictGet, hp]
    · simp [dictSet, dictGet, hp, ih]

theorem dictGet_dictSet_ne (d : Dict) (k v k' : String) (h : k' ≠ k) :
    dictGet (dictSet d k v) k' = dictGet d k' := by
  induction d with
  | nil =>
    have h' : ¬ ((k : String) = k') := fun hk => h hk.symm
    simp [dictSet, dictGet, h']
  | cons p rest ih =>
    by_cases hp : p.1 = k
    · have h' : ¬ ((k : String) = k') := fun hk => h hk.symm
      have hp' : ¬ (p.1 = k') := by rw [hp]; exact h'
      simp [dictSet, dictGet, hp, h', hp']
    · by_cases hq : p.1 = k'
      · simp [dictSet, dictGet, hp, hq, h]
      · simp [dictSet, dictGet, hp, hq, ih]

/-- Keys of `dictSet`: either unchanged (key overwritten in place) or the
new key appended at the end. -/
theorem dictSet_keys (d : Dict) (k v : String) :
    (dictSet d k v).map Prod.fst = d.map Prod.fst ∨
    (dictSet d k v).map Prod.fst = d.map Prod.fst ++ [k] := by
  induction d with
  | nil => right; rfl
  | cons p rest ih =>
    by_cases hp : p.1 = k
    · left; simp [dictSet, hp]
    · rcases ih with h1 | h1
      · left; simp [dictSet, hp, h1]
      · right; simp [dictSet, hp, h1]

/-- The configs passed to SDK construction along a trace, in order. -/
def createdConfigs (tr : List Ev) : List Dict :=
  tr.filterMap (fun e => match e with | Ev.sdkCreate cfg => some cfg | _ => none)

/-- A structured failure response: a `status` discriminator of `error` or
`timeout`, plus a `message` string. -/
def structuredFailure (o : Obj) : Prop :=
  (objGet o "status" = some (Val.str "error") ∨
   objGet o "status" = some (Val.str "timeout")) ∧
  ∃ m, objGet o "message" = some (Val.str m)

/-! ### Handler lemmas -/

/-- The `except` clauses change only the response, not the event trace. -/
theorem sale_trace_eq (env : Env) (data : SaleRequest) :
    (sale env data).2 = (saleBody env data).2 := by
  rcases h : saleBody env data with ⟨e | a, tr⟩
  · cases e <;> simp [sale, h]
  · simp [sale, h]

/-- The `except` clauses change only the response, not the event trace. -/
theorem status_trace_eq (env : Env) (data : StatusRequest) :
    (status env data).2 = (statusBody env data).2 := by
  rcases h : statusBody env data with ⟨e | a, tr⟩
  · cases e <;> simp [status, h]
  · simp [status, h]

/-- On the happy path (config well-formed, port present, construction
succeeds) the `/sale` body runs the SDK call under the 180 s executor with
the merged config, in a trace with exactly this shape. -/
theorem saleBody_happy (env : Env) (configs : List (String × Dict)) (sec : Dict)
    (port : String) (data : SaleRequest)
    (h1 : env.configFile = Except.ok configs)
    (h2 : configsGet configs "Sale" = some sec)
    (h3 : dictGet sec "port_name" = some port)
    (h4 : is_port_available env.ports port = true)
    (hc : env.construct (mergedSaleConfig sec data) = Except.ok ()) :
    saleBody env data =
      (execValue (env.saleRun (mergedSaleConfig sec data)) saleTimeoutSeconds,
       [Ev.configLoad, Ev.portCheck port, Ev.sdkCreate (mergedSaleConfig sec data),
        Ev.devStart, Ev.devEnd]) := by
  simp [saleBody, h1, h2, h3, h4, hc]

/-- Happy-path shape of the `/status` body: the SDK call runs under the
60 s executor with the Status section plus `order_id`. -/
theorem statusBody_happy (env : Env) (configs : List (String × Dict)) (sec : Dict)
    (port : String) (data : StatusRequest)
    (h1 : env.configFile = Except.ok configs)
    (h2 : configsGet configs "Status" = some sec)
    (h3 : dictGet sec "port_name" = some port)
    (h4 : is_port_available env.ports port = true)
    (hc : env.construct (mergedStatusConfig sec data) = Except.ok ()) :
    statusBody env data =
      (execValue (env.statusRun (mergedStatusConfig sec data)) statusTimeoutSeconds,
       [Ev.configLoad, Ev.portCheck port, Ev.sdkCreate (mergedStatusConfig sec data),
        Ev.devStart, Ev.devEnd]) := by
  simp [statusBody, h1, h2, h3, h4, hc]

/-- When the configured port is absent the `/sale` body returns the
device-unavailable object right after the port check. -/
theorem saleBody_unavailable (env : Env) (configs : List (String × Dict)) (sec : Dict)
    (port : String) (data : SaleRequest)
    (h1 : env.configFile = Except.ok configs)
    (h2 : configsGet configs "Sale" = some sec)
    (h3 : dictGet sec "port_name" = some port)
    (h4 : is_port_available env.ports port = false) :
    saleBody env data =
      (Except.ok (statusMsgObj "error" ("Device not connected on " ++ port)),
       [Ev.configLoad, Ev.portCheck port]) := by
  simp [saleBody, h1, h2, h3, h4]

/-- When the configured port is absent the `/status` body returns the
device-unavailable object right after the port check. -/
theorem statusBody_unavailable (env : Env) (configs : List (String × Dict)) (sec : Dict)
    (port : String) (data : StatusRequest)
    (h1 : env.configFile = Except.ok configs)
    (h2 : configsGet configs "Status" = some sec)
    (h3 : dictGet sec "port_name" = some port)
    (h4 : is_port_available env.ports port = false) :
    statusBody env data =
      (Except.ok (statusMsgObj "error" ("Device not connected on " ++ port)),
       [Ev.configLoad, Ev.portCheck port]) := by
  simp [statusBody, h1, h2, h3, h4]

/-- No execution path of the `/sale` body touches a gate: the source has
no locking construct. -/
theorem gate_free_saleBody (env : Env) (data : SaleRequest) :
    Ev.acquire ∉ (saleBody env data).2 ∧ Ev.release ∉ (saleBody env data).2 := by
  unfold saleBody
  cases h1 : env.configFile with
  | error e => simp
  | ok configs =>
    cases h2 : configsGet configs "Sale" with
    | none => simp [h2]
    | some sec =>
      cases h3 : dictGet sec "port_name" with
      | none => simp [h2, h3]
      | some port =>
        cases h4 : is_port_available env.ports port with
        | false => simp [h2, h3, h4]
        | true =>
          cases h5 : env.construct (mergedSaleConfig sec data) with
          | error e => simp [h2, h3, h4, h5]
          | ok u => simp [h2, h3, h4, h5]

/-- No execution path of the `/status` body touches a gate. -/
theorem gate_free_statusBody (env : Env) (data : StatusRequest) :
    Ev.acquire ∉ (statusBody env data).2 ∧ Ev.release ∉ (statusBody env data).2 := by
  unfold statusBody
  cases h1 : env.configFile with
  | error e => simp
  | ok configs =>
    cases h2 : configsGet configs "Status" with
    | none => simp [h2]
    | some sec =>
      cases h3 : dictGet sec "port_name" with
      | none => simp [h2, h3]
      | some port =>
        cases h4 : is_port_available env.ports port with
        | false => simp [h2, h3, h4]
        | true =>
          cases h5 : env.construct (mergedStatusConfig sec data) with
          | error e => simp [h2, h3, h4, h5]
          | ok u => simp [h2, h3, h4, h5]

/-- The fixed `{status, message}` objects are structured failures. -/
theorem structuredFailure_statusMsgObj (st msg : String)
    (h : st = "error" ∨ st = "timeout") :
    structuredFailure (statusMsgObj st msg) := by
  constructor
  · rcases h with h | h
    · left; simp [statusMsgObj, objGet, List.find?, h]
    · right; simp [statusMsgObj, objGet, List.find?, h]
  · exact ⟨msg, by simp [statusMsgObj, objGet, List.find?]⟩

/-! ### Claims -/

/-- C1: The claim says every `/sale` and `/status` handler acquires a
mutual-exclusion gate before its device operation and releases it on every
exit path, so device-operation windows of concurrent requests never
overlap.  The source contains no lock: no execution path of either handler
performs a gate acquisition or release, and there is an admissible
interleaving of a concurrent `/sale` and `/status` request (vacuously
respecting the gate discipline, since no gate events occur) in which both
requests are inside their device-operation windows at the same time. -/
theorem C1_no_gate_and_device_windows_overlap :
    (∀ env data, Ev.acquire ∉ (sale env data).2 ∧ Ev.release ∉ (sale env data).2) ∧
    (∀ env data, Ev.acquire ∉ (status env data).2 ∧ Ev.release ∉ (status env data).2) ∧
    IsInterleaving (sale envOk reqA1).2 (status envOk reqS1).2 ilWitness ∧
    lockOk none ilWitness = true ∧
    windowsOverlap ilWitness = true := by
  refine ⟨fun env data => ?_, fun env data => ?_, ⟨by decide, by decide⟩,
    by decide, by decide⟩
  · rw [sale_trace_eq]
    exact gate_free_saleBody env data
  · rw [status_trace_eq]
    exact gate_free_statusBody env data

/-- C2: The claim says a timed-out device operation yields its
caller-visible `Timeout` result within bounded overhead of the deadline.
In the source, `execute_with_timeout` opens the executor in a `with`
block, whose exit calls `shutdown(wait=True)`: the `TimeoutError` raised
by `future.result(timeout=...)` propagates only after the worker finishes,
so the elapsed time equals the full duration of the underlying call.  A
call of duration 300 s under the 60 s deadline returns the timeout outcome
only at 300 s, and for every claimed overhead bound there is a duration
exceeding deadline-plus-bound at which the result is still pending. -/
theorem C2_timeout_result_waits_for_worker :
    execute_with_timeout ⟨Except.ok [], 300⟩ statusTimeoutSeconds
      = (Except.error Exc.timeoutError, 300) ∧
    (∀ bound : Nat, ∃ d : Nat,
      execute_with_timeout ⟨Except.ok [], d⟩ statusTimeoutSeconds
        = (Except.error Exc.timeoutError, d) ∧
      statusTimeoutSeconds + bound < d) := by
  constructor
  · rfl
  · intro bound
    refine ⟨statusTimeoutSeconds + bound + 1, ?_, by omega⟩
    have h : ¬ (statusTimeoutSeconds + bound + 1 ≤ statusTimeoutSeconds) := by omega
    simp [execute_with_timeout, h]

/-- C3: When the configured port is not in the enumerated port list, both
`/sale` and `/status` return the `Device not connected on <port>` error
object right after the port check: no SDK instance is constructed, no
device operation starts, and no gate is acquired. -/
theorem C3_port_absent_short_circuits (env : Env) (configs : List (String × Dict))
    (secS secT : Dict) (pS pT : String) (data : SaleRequest) (dataT : StatusRequest)
    (h1 : env.configFile = Except.ok configs)
    (h2 : configsGet configs "Sale" = some secS)
    (h3 : dictGet secS "port_name" = some pS)
    (h4 : is_port_available env.ports pS = false)
    (h5 : configsGet configs "Status" = some secT)
    (h6 : dictGet secT "port_name" = some pT)
    (h7 : is_port_available env.ports pT = false) :
    sale env data = (statusMsgObj "error" ("Device not connected on " ++ pS),
      [Ev.configLoad, Ev.portCheck pS]) ∧
    status env dataT = (statusMsgObj "error" ("Device not connected on " ++ pT),
      [Ev.configLoad, Ev.portCheck pT]) ∧
    (∀ cfg, Ev.sdkCreate cfg ∉ (sale env data).2) ∧
    Ev.devStart ∉ (sale env data).2 ∧ Ev.acquire ∉ (sale env data).2 ∧
    (∀ cfg, Ev.sdkCreate cfg ∉ (status env dataT).2) ∧
    Ev.devStart ∉ (status env dataT).2 ∧ Ev.acquire ∉ (status env dataT).2 := by
  have hs := saleBody_unavailable env configs secS pS data h1 h2 h3 h4
  have ht := statusBody_unavailable env configs secT pT dataT h1 h5 h6 h7
  have hs' : sale env data = (statusMsgObj "error" ("Device not connected on " ++ pS),
      [Ev.configLoad, Ev.portCheck pS]) := by
    simp [sale, hs]
  have ht' : status env dataT = (statusMsgObj "error" ("Device not connected on " ++ pT),
      [Ev.configLoad, Ev.portCheck pT]) := by
    simp [status, ht]
  exact ⟨hs', ht', by simp [hs'], by simp [hs'], by simp [hs'],
    by simp [ht'], by simp [ht'], by simp [ht']⟩

/-- C4: Every failure arising inside a handler is caught at the handler
boundary: for all environments and requests, `/sale` and `/status` either
return the value their `try`-block produced or a structured object with a
`status` discriminator of `error`/`timeout` and a `message`; `/health`
either reports `status: running` or such a structured error.  No handler
propagates an exception (each is a total function of its inputs). -/
theorem C4_handler_failures_are_structured :
    (∀ env data, (saleBody env data).1 = Except.ok (sale env data).1 ∨
      structuredFailure (sale env data).1) ∧
    (∀ env data, (statusBody env data).1 = Except.ok (status env data).1 ∨
      structuredFailure (status env data).1) ∧
    (∀ env, objGet (health env).1 "status" = some (Val.str "running") ∨
      structuredFailure (health env).1) := by
  refine ⟨fun env data => ?_, fun env data => ?_, fun env => ?_⟩
  · rcases h : saleBody env data with ⟨e | a, tr⟩
    · right
      cases e with
      | timeoutError =>
        have : (sale env data).1 = statusMsgObj "timeout" "Transaction timed out" := by
          simp [sale, h]
        rw [this]
        exact structuredFailure_statusMsgObj _ _ (Or.inr rfl)
      | exc m =>
        have : (sale env data).1 = statusMsgObj "error" m := by
          simp [sale, h]
        rw [this]
        exact structuredFailure_statusMsgObj _ _ (Or.inl rfl)
    · left
      simp [sale, h]
  · rcases h : statusBody env data with ⟨e | a, tr⟩
    · right
      cases e with
      | timeoutError =>
        have : (status env data).1 = statusMsgObj "timeout" "Status request timed out" := by
          simp [status, h]
        rw [this]
        exact structuredFailure_statusMsgObj _ _ (Or.inr rfl)
      | exc m =>
        have : (status env data).1 = statusMsgObj "error" m := by
          simp [status, h]
        rw [this]
        exact structuredFailure_statusMsgObj _ _ (Or.inl rfl)
    · left
      simp [status, h]
  · cases h1 : env.configFile with
    | error e =>
      right
      have hv : (health env).1 = statusMsgObj "error" e := by simp [health, h1]
      rw [hv]
      exact structuredFailure_statusMsgObj _ _ (Or.inl rfl)
    | ok configs =>
      cases h2 : configsGet configs "Sale" with
      | none =>
        right
        have hv : (health env).1 = statusMsgObj "error" "KeyError: Sale" := by
          simp [health, h1, h2]
        rw [hv]
        exact structuredFailure_statusMsgObj _ _ (Or.inl rfl)
      | some sec =>
        cases h3 : dictGet sec "port_name" with
        | none =>
          right
          have hv : (health env).1 = statusMsgObj "error" "KeyError: port_name" := by
            simp [health, h1, h2, h3]
          rw [hv]
          exact structuredFailure_statusMsgObj _ _ (Or.inl rfl)
        | some port =>
          left
          have hv : (health env).1 = [("status", Val.str "running"),
              ("device_connected", Val.bool (is_port_available env.ports port)),
              ("port", Val.str port)] := by
            simp [health, h1, h2, h3]
          rw [hv]
          simp [objGet, List.find?]

/-- Witness for C3 at a concrete environment whose port list lacks the
configured COM3. -/
theorem C3_port_absent_short_circuits_witness :
    sale envNoPort reqA1 = (statusMsgObj "error" ("Device not connected on " ++ "COM3"),
      [Ev.configLoad, Ev.portCheck "COM3"]) ∧
    status envNoPort reqS1 = (statusMsgObj "error" ("Device not connected on " ++ "COM3"),
      [Ev.configLoad, Ev.portCheck "COM3"]) ∧
    (∀ cfg, Ev.sdkCreate cfg ∉ (sale envNoPort reqA1).2) ∧
    Ev.devStart ∉ (sale envNoPort reqA1).2 ∧ Ev.acquire ∉ (sale envNoPort reqA1).2 ∧
    (∀ cfg, Ev.sdkCreate cfg ∉ (status envNoPort reqS1).2) ∧
    Ev.devStart ∉ (status envNoPort reqS1).2 ∧ Ev.acquire ∉ (status envNoPort reqS1).2 :=
  C3_port_absent_short_circuits envNoPort okConfigs saleSection statusSection
    "COM3" "COM3" reqA1 reqS1 rfl rfl rfl (by decide) rfl rfl (by decide)

/-- C5: On a `/sale` request whose configured port is present, the handler
constructs exactly one SDK instance for the call, from the merged per-call
config; the merged config carries the request's `order_id` and `amount`,
and `payment_mode` defaults to `QR` when the request body omits it. -/
theorem C5_one_fresh_sdk_instance_with_merged_config
    (env : Env) (configs : List (String × Dict)) (sec : Dict) (port : String)
    (body : Body) (data : SaleRequest)
    (h1 : env.configFile = Except.ok configs)
    (h2 : configsGet configs "Sale" = some sec)
    (h3 : dictGet sec "port_name" = some port)
    (h4 : is_port_available env.ports port = true)
    (hc : env.construct (mergedSaleConfig sec data) = Except.ok ())
    (hparse : parseSaleRequest body = Except.ok data)
    (hpm : bodyGet body "payment_mode" = none) :
    createdConfigs (sale env data).2 = [mergedSaleConfig sec data] ∧
    dictGet (mergedSaleConfig sec data) "order_id" = some data.order_id ∧
    dictGet (mergedSaleConfig sec data) "amount" = some data.amount ∧
    dictGet (mergedSaleConfig sec data) "payment_mode" = some data.payment_mode ∧
    data.payment_mode = "QR" := by
  have htr : (sale env data).2 = [Ev.configLoad, Ev.portCheck port,
      Ev.sdkCreate (mergedSaleConfig sec data), Ev.devStart, Ev.devEnd] := by
    rw [sale_trace_eq, saleBody_happy env configs sec port data h1 h2 h3 h4 hc]
  refine ⟨by rw [htr]; rfl, ?_, ?_, ?_, ?_⟩
  · unfold mergedSaleConfig
    rw [dictGet_dictSet_ne _ _ _ _ (by decide), dictGet_dictSet_ne _ _ _ _ (by decide),
      dictGet_dictSet_self]
  · unfold mergedSaleConfig
    rw [dictGet_dictSet_ne _ _ _ _ (by decide), dictGet_dictSet_self]
  · unfold mergedSaleConfig
    rw [dictGet_dictSet_self]
  · rcases ho : bodyGet body "order_id" with _ | oid <;>
      rcases ha : bodyGet body "amount" with _ | amt <;>
      simp [parseSaleRequest, ho, ha, hpm] at hparse
    rw [← hparse]

/-- Witness for C5: scenario 1 of the spec, `order_id` A1, `amount`
100.00, `payment_mode` omitted from the request body. -/
theorem C5_one_fresh_sdk_instance_with_merged_config_witness :
    createdConfigs (sale envOk reqA1).2 = [mergedSaleConfig saleSection reqA1] ∧
    dictGet (mergedSaleConfig saleSection reqA1) "order_id" = some reqA1.order_id ∧
    dictGet (mergedSaleConfig saleSection reqA1) "amount" = some reqA1.amount ∧
    dictGet (mergedSaleConfig saleSection reqA1) "payment_mode" = some reqA1.payment_mode ∧
    reqA1.payment_mode = "QR" :=
  C5_one_fresh_sdk_instance_with_merged_config envOk okConfigs saleSection "COM3"
    [("order_id", "A1"), ("amount", "100.00")] reqA1 rfl rfl rfl (by decide) rfl rfl rfl

/-- C6: The config merge is non-destructive across requests: each request
derives its own config from the (freshly loaded) Sale section, so two
requests with different order ids each see exactly their own injected
fields, and all non-injected fields of the section pass through
unchanged.  (In the source every request re-parses `config.json` inside
`get_configs`, bridge.py lines 29-36, so no dict is shared between
requests; the per-request mutation on lines 108-110 therefore cannot leak
into another request's derived config, which is what this theorem
expresses over the per-request derivations.) -/
theorem C6_config_merge_nondestructive
    (env : Env) (configs : List (String × Dict)) (sec : Dict) (port : String)
    (r1 r2 : SaleRequest)
    (h1 : env.configFile = Except.ok configs)
    (h2 : configsGet configs "Sale" = some sec)
    (h3 : dictGet sec "port_name" = some port)
    (h4 : is_port_available env.ports port = true)
    (hc1 : env.construct (mergedSaleConfig sec r1) = Except.ok ())
    (hc2 : env.construct (mergedSaleConfig sec r2) = Except.ok ())
    (hne : r1.order_id ≠ r2.order_id) :
    createdConfigs (sale env r1).2 = [mergedSaleConfig sec r1] ∧
    createdConfigs (sale env r2).2 = [mergedSaleConfig sec r2] ∧
    dictGet (mergedSaleConfig sec r1) "order_id" = some r1.order_id ∧
    dictGet (mergedSaleConfig sec r2) "order_id" = some r2.order_id ∧
    dictGet (mergedSaleConfig sec r1) "order_id" ≠ some r2.order_id ∧
    dictGet (mergedSaleConfig sec r2) "order_id" ≠ some r1.order_id ∧
    (∀ k, k ≠ "order_id" → k ≠ "amount" → k ≠ "payment_mode" →
      dictGet (mergedSaleConfig sec r1) k = dictGet sec k) := by
  have key : ∀ r : SaleRequest,
      dictGet (mergedSaleConfig sec r) "order_id" = some r.order_id := by
    intro r
    unfold mergedSaleConfig
    rw [dictGet_dictSet_ne _ _ _ _ (by decide), dictGet_dictSet_ne _ _ _ _ (by decide),
      dictGet_dictSet_self]
  have tr1 : (sale env r1).2 = [Ev.configLoad, Ev.portCheck port,
      Ev.sdkCreate (mergedSaleConfig sec r1), Ev.devStart, Ev.devEnd] := by
    rw [sale_trace_eq, saleBody_happy env configs sec port r1 h1 h2 h3 h4 hc1]
  have tr2 : (sale env r2).2 = [Ev.configLoad, Ev.portCheck port,
      Ev.sdkCreate (mergedSaleConfig sec r2), Ev.devStart, Ev.devEnd] := by
    rw [sale_trace_eq, saleBody_happy env configs sec port r2 h1 h2 h3 h4 hc2]
  refine ⟨by rw [tr1]; rfl, by rw [tr2]; rfl, key r1, key r2, ?_, ?_, ?_⟩
  · rw [key r1]
    simpa using hne
  · rw [key r2]
    simpa using hne.symm
  · intro k hk1 hk2 hk3
    unfold mergedSaleConfig
    rw [dictGet_dictSet_ne _ _ _ _ hk3, dictGet_dictSet_ne _ _ _ _ hk2,
      dictGet_dictSet_ne _ _ _ _ hk1]

/-- Witness for C6: two concrete requests with order ids A1 and B2. -/
theorem C6_config_merge_nondestructive_witness :
    createdConfigs (sale envOk reqA1).2 = [mergedSaleConfig saleSection reqA1] ∧
    createdConfigs (sale envOk reqB2).2 = [mergedSaleConfig saleSection reqB2] ∧
    dictGet (mergedSaleConfig saleSection reqA1) "order_id" = some reqA1.order_id ∧
    dictGet (mergedSaleConfig saleSection reqB2) "order_id" = some reqB2.order_id ∧
    dictGet (mergedSaleConfig saleSection reqA1) "order_id" ≠ some reqB2.order_id ∧
    dictGet (mergedSaleConfig saleSection reqB2) "order_id" ≠ some reqA1.order_id ∧
    (∀ k, k ≠ "order_id" → k ≠ "amount" → k ≠ "payment_mode" →
      dictGet (mergedSaleConfig saleSection reqA1) k = dictGet saleSection k) :=
  C6_config_merge_nondestructive envOk okConfigs saleSection "COM3" reqA1 reqB2
    rfl rfl rfl (by decide) rfl rfl (by decide)

/-- C7: The executor deadline in the source is 180 s for Sale (inside the
spec's 180-200 s range) and 60 s for Status, and a `/status` request whose
SDK call exceeds the 60 s deadline returns exactly
`{status: "timeout", message: "Status request timed out"}`. -/
theorem C7_executor_deadlines_and_status_timeout
    (env : Env) (configs : List (String × Dict)) (sec : Dict) (port : String)
    (data : StatusRequest)
    (h1 : env.configFile = Except.ok configs)
    (h2 : configsGet configs "Status" = some sec)
    (h3 : dictGet sec "port_name" = some port)
    (h4 : is_port_available env.ports port = true)
    (hc : env.construct (mergedStatusConfig sec data) = Except.ok ())
    (hd : statusTimeoutSeconds < (env.statusRun (mergedStatusConfig sec data)).duration) :
    saleTimeoutSeconds = 180 ∧ 180 ≤ saleTimeoutSeconds ∧ saleTimeoutSeconds ≤ 200 ∧
    statusTimeoutSeconds = 60 ∧
    (status env data).1 = statusMsgObj "timeout" "Status request timed out" := by
  have hb := statusBody_happy env configs sec port data h1 h2 h3 h4 hc
  have hle : ¬ ((env.statusRun (mergedStatusConfig sec data)).duration
      ≤ statusTimeoutSeconds) := Nat.not_le.mpr hd
  have hex : execValue (env.statusRun (mergedStatusConfig sec data)) statusTimeoutSeconds
      = Except.error Exc.timeoutError := by
    unfold execValue execute_with_timeout
    simp [hle]
  exact ⟨rfl, by decide, by decide, rfl, by simp [status, hb, hex]⟩

/-- Witness for C7: a Status SDK call lasting 100 s under the 60 s
deadline. -/
theorem C7_executor_deadlines_and_status_timeout_witness :
    saleTimeoutSeconds = 180 ∧ 180 ≤ saleTimeoutSeconds ∧ saleTimeoutSeconds ≤ 200 ∧
    statusTimeoutSeconds = 60 ∧
    (status envSlow reqS1).1 = statusMsgObj "timeout" "Status request timed out" :=
  C7_executor_deadlines_and_status_timeout envSlow okConfigs statusSection "COM3"
    reqS1 rfl rfl rfl (by decide) rfl (by decide)

/-- C8: `/health` loads the config and only checks OS-level presence of
the Sale section's port: its trace never contains an SDK construction, a
device-operation start, or a gate acquisition; on a well-formed config it
returns `{status: "running", device_connected, port}` with the Sale port,
and on a config-load failure it returns `{status: "error", message}`
instead of propagating the failure. -/
theorem C8_health_reports_without_touching_device (env : Env) :
    (∀ cfg, Ev.sdkCreate cfg ∉ (health env).2) ∧
    Ev.devStart ∉ (health env).2 ∧
    Ev.acquire ∉ (health env).2 ∧
    (∀ configs sec port, env.configFile = Except.ok configs →
      configsGet configs "Sale" = some sec →
      dictGet sec "port_name" = some port →
      (health env).1 = [("status", Val.str "running"),
        ("device_connected", Val.bool (is_port_available env.ports port)),
        ("port", Val.str port)]) ∧
    (∀ e, env.configFile = Except.error e →
      (health env).1 = statusMsgObj "error" e) := by
  have htrace : (health env).2 = [Ev.configLoad] ∨
      ∃ port, (health env).2 = [Ev.configLoad, Ev.portCheck port] := by
    unfold health
    cases h1 : env.configFile with
    | error e => simp
    | ok configs =>
      cases h2 : configsGet configs "Sale" with
      | none => simp [h2]
      | some sec =>
        cases h3 : dictGet sec "port_name" with
        | none => simp [h2, h3]
        | some port => simp [h2, h3]
  refine ⟨?_, ?_, ?_, ?_, ?_⟩
  · intro cfg
    rcases htrace with h | ⟨port, h⟩ <;> simp [h]
  · rcases htrace with h | ⟨port, h⟩ <;> simp [h]
  · rcases htrace with h | ⟨port, h⟩ <;> simp [h]
  · intro configs sec port h1 h2 h3
    simp [health, h1, h2, h3]
  · intro e h1
    simp [health, h1]

/-- Witness for C8: a healthy concrete environment with COM3 present. -/
theorem C8_health_reports_without_touching_device_witness :
    (health envOk).1 = [("status", Val.str "running"),
      ("device_connected", Val.bool (is_port_available envOk.ports "COM3")),
      ("port", Val.str "COM3")] :=
  (C8_health_reports_without_touching_device envOk).2.2.2.1 okConfigs saleSection
    "COM3" rfl rfl rfl

/-- C9 counterexample: the claim says an empty `order_id` is rejected as a
`ValidationError`.  Pydantic only checks that `order_id` and `amount` are
strings: the body `{order_id: "", amount: "100.00"}` validates
successfully (with `payment_mode` defaulted to `QR`) and the resulting
request is forwarded to the device operation — the `/sale` trace reaches
`devStart` and the empty `order_id` is injected into the SDK config. -/
theorem C9_empty_order_id_accepted_and_forwarded :
    parseSaleRequest [("order_id", ""), ("amount", "100.00")]
      = Except.ok ⟨"", "100.00", "QR"⟩ ∧
    Ev.devStart ∈ (sale envOk ⟨"", "100.00", "QR"⟩).2 ∧
    createdConfigs (sale envOk ⟨"", "100.00", "QR"⟩).2
      = [mergedSaleConfig saleSection ⟨"", "100.00", "QR"⟩] ∧
    dictGet (mergedSaleConfig saleSection ⟨"", "100.00", "QR"⟩) "order_id" = some "" :=
  ⟨rfl, by decide, by decide, by decide⟩

/-- C9 amended: validation of `/sale` requires only that `order_id` and
`amount` fields be present (as strings); their contents — emptiness,
numeric format — are not checked, and `payment_mode` defaults to `QR` when
absent; `/status` requires only a present `order_id`.  A body missing a
required field is rejected as a `ValidationError`. -/
theorem C9_validation_checks_presence_only :
    (∀ b oid amt, bodyGet b "order_id" = some oid → bodyGet b "amount" = some amt →
      parseSaleRequest b = Except.ok ⟨oid, amt, (bodyGet b "payment_mode").getD "QR"⟩) ∧
    (∀ b, bodyGet b "order_id" = none →
      parseSaleRequest b = Except.error "ValidationError: order_id field required") ∧
    (∀ b oid, bodyGet b "order_id" = some oid → bodyGet b "amount" = none →
      parseSaleRequest b = Except.error "ValidationError: amount field required") ∧
    (∀ b oid, bodyGet b "order_id" = some oid → parseStatusRequest b = Except.ok ⟨oid⟩) := by
  refine ⟨?_, ?_, ?_, ?_⟩
  · intro b oid amt ho ha
    simp [parseSaleRequest, ho, ha]
  · intro b ho
    simp [parseSaleRequest, ho]
  · intro b oid ho ha
    simp [parseSaleRequest, ho, ha]
  · intro b oid ho
    simp [parseStatusRequest, ho]

/-- Witness for the amended C9 at a concrete body. -/
theorem C9_validation_checks_presence_only_witness :
    parseSaleRequest [("order_id", "A1"), ("amount", "100.00")]
      = Except.ok ⟨"A1", "100.00", "QR"⟩ :=
  C9_validation_checks_presence_only.1 [("order_id", "A1"), ("amount", "100.00")]
    "A1" "100.00" rfl rfl

/-- C10: On a `/status` request whose port check passes, the config handed
to the SDK constructor is exactly the Status section with the single key
`order_id` set to the request's order id: every other key reads the same
as in the section, the key list is unchanged or extended by `order_id`
alone, and in particular `amount` and `payment_mode` are not injected. -/
theorem C10_status_config_single_key_frame
    (env : Env) (configs : List (String × Dict)) (sec : Dict) (port : String)
    (data : StatusRequest)
    (h1 : env.configFile = Except.ok configs)
    (h2 : configsGet configs "Status" = some sec)
    (h3 : dictGet sec "port_name" = some port)
    (h4 : is_port_available env.ports port = true)
    (hc : env.construct (mergedStatusConfig sec data) = Except.ok ()) :
    createdConfigs (status env data).2 = [dictSet sec "order_id" data.order_id] ∧
    dictGet (dictSet sec "order_id" data.order_id) "order_id" = some data.order_id ∧
    (∀ k, k ≠ "order_id" →
      dictGet (dictSet sec "order_id" data.order_id) k = dictGet sec k) ∧
    ((dictSet sec "order_id" data.order_id).map Prod.fst = sec.map Prod.fst ∨
     (dictSet sec "order_id" data.order_id).map Prod.fst
       = sec.map Prod.fst ++ ["order_id"]) ∧
    dictGet (dictSet sec "order_id" data.order_id) "amount" = dictGet sec "amount" ∧
    dictGet (dictSet sec "order_id" data.order_id) "payment_mode"
      = dictGet sec "payment_mode" := by
  have htr : (status env data).2 = [Ev.configLoad, Ev.portCheck port,
      Ev.sdkCreate (mergedStatusConfig sec data), Ev.devStart, Ev.devEnd] := by
    rw [status_trace_eq, statusBody_happy env configs sec port data h1 h2 h3 h4 hc]
  exact ⟨by rw [htr]; rfl, dictGet_dictSet_self _ _ _,
    fun k hk => dictGet_dictSet_ne _ _ _ _ hk,
    dictSet_keys _ _ _,
    dictGet_dictSet_ne _ _ _ _ (by decide),
    dictGet_dictSet_ne _ _ _ _ (by decide)⟩

/-- Witness for C10 at a concrete environment and request. -/
theorem C10_status_config_single_key_frame_witness :
    createdConfigs (status envOk reqS1).2
      = [dictSet statusSection "order_id" reqS1.order_id] ∧
    dictGet (dictSet statusSection "order_id" reqS1.order_id) "order_id"
      = some reqS1.order_id ∧
    (∀ k, k ≠ "order_id" →
      dictGet (dictSet statusSection "order_id" reqS1.order_id) k
        = dictGet statusSection k) ∧
    ((dictSet statusSection "order_id" reqS1.order_id).map Prod.fst
        = statusSection.map Prod.fst ∨
     (dictSet statusSection "order_id" reqS1.order_id).map Prod.fst
        = statusSection.map Prod.fst ++ ["order_id"]) ∧
    dictGet (dictSet statusSection "order_id" reqS1.order_id) "amount"
      = dictGet statusSection "amount" ∧
    dictGet (dictSet statusSection "order_id" reqS1.order_id) "payment_mode"
      = dictGet statusSection "payment_mode" :=
  C10_status_config_single_key_frame envOk okConfigs statusSection "COM3" reqS1
    rfl rfl rfl (by decide) rfl

end PaytmBridge
